import Mathlib

/-!
# Verification of the FormSubmit auto-reply email bot

Shallow embedding of the two source files `email_gpt_bot.py` and
`email_bot.py` (class `AIFormSubmitEmailBot`): the field-extraction
cascade, the sender-resolution logic, the processed-ids ledger, the
AI-response retry loop with its deterministic fallback template, and
the per-message orchestration of `check_emails`.

Strings are modelled as `List Char` (`Str`); Python dicts as ordered
association lists with unique keys (`Dict`), matching CPython's
insertion-ordered dict semantics.  External collaborators (IMAP, SMTP,
OpenAI, BeautifulSoup) are modelled at the boundary the code observes:
fetch/store outcomes, a service call trace, and pre-parsed HTML table
rows.
-/

/-- Python `str` modelled as a list of characters. -/
abbrev Str := List Char

/-- Python `dict[str, str]` modelled as an insertion-ordered association
list with unique keys (CPython dicts preserve insertion order). -/
abbrev Dict := List (Str × Str)

/-- ASCII whitespace recognised by Python's `str.strip()` / `\s`
(the inputs in this development are ASCII). -/
def isPyWhitespace (c : Char) : Bool :=
  c = ' ' || c = '\t' || c = '\n' || c = '\r' || c = '\x0b' || c = '\x0c'

/-- Python `str.strip()`: drop whitespace from both ends. -/
def pyStrip (s : Str) : Str :=
  ((s.dropWhile isPyWhitespace).reverse.dropWhile isPyWhitespace).reverse

/-- Python `str.lower()` (ASCII). -/
def pyLower (s : Str) : Str :=
  s.map Char.toLower

/-- Python `str.split(sep)` for a one-character separator: keeps empty
segments, `[] ↦ [[]]`, exactly like `"".split(sep) == ['']`. -/
def splitOnChar (sep : Char) : Str → List Str
  | [] => [[]]
  | c :: cs =>
    let r := splitOnChar sep cs
    if c = sep then [] :: r
    else
      match r with
      | [] => [[c]]
      | h :: t => (c :: h) :: t

/-- Python `s.split(sep, 1)` when `sep` occurs in `s`: the text before the
first `sep` and everything after it; `none` when `sep` is absent (the
source guards the split with `if ':' in line`). -/
def splitOnce (sep : Char) : Str → Option (Str × Str)
  | [] => none
  | c :: cs =>
    if c = sep then some ([], cs)
    else (splitOnce sep cs).map (fun p => (c :: p.1, p.2))

/-- Python `d[k] = v` on an insertion-ordered dict: overwrite in place if
the key exists, else append. -/
def dictSet (d : Dict) (k v : Str) : Dict :=
  if d.any (fun p => p.1 == k) then
    d.map (fun p => if p.1 == k then (k, v) else p)
  else d ++ [(k, v)]

/-- Python `d.get(k)`: `none` models `None`. -/
def dictGet (d : Dict) (k : Str) : Option Str :=
  (d.find? (fun p => p.1 == k)).map (·.2)

/-- Python `d.update(d')`: fold the entries of `d'` into `d`. -/
def dictUpdate (d d' : Dict) : Dict :=
  d'.foldl (fun a kv => dictSet a kv.1 kv.2) d

/-- Python truthiness of an optional string: `None` and `""` are falsy. -/
def pyTruthy : Option Str → Bool
  | none => false
  | some v => !v.isEmpty

/-- `needle` occurs as a contiguous substring of `hay`
(Python `needle in hay`). -/
def SubStr (needle hay : Str) : Prop :=
  ∃ l r, hay = l ++ needle ++ r


/-! ## Regex machinery

The source uses four regular expressions, all of the shape
`label` + `delimiter-run` + `tail`:

* `email:\s*([^\n]+)` (gpt variant rescues, applied to lowered text),
* `name[:\s]+([^\n]+)` and `message[:\s]+([^\n]+)` (html variant),
* `email[:\s]+([a-zA-Z0-9._%+-]+@[a-zA-Z0-9.-]+\.[a-zA-Z]{2,})` (html
  variant).

They are embedded with Python `re.search` semantics: leftmost starting
position first, greedy quantifiers with backtracking. -/

/-- Class `[:\s]` from the html-variant patterns. -/
def colonWsChar (c : Char) : Bool :=
  c = ':' || isPyWhitespace c

/-- ASCII letter (regex class `[a-zA-Z]`). -/
def alphaChar (c : Char) : Bool :=
  ('a' ≤ c && c ≤ 'z') || ('A' ≤ c && c ≤ 'Z')

/-- ASCII digit. -/
def digitChar (c : Char) : Bool :=
  '0' ≤ c && c ≤ '9'

/-- Regex class `[a-zA-Z0-9._%+-]` (email local part). -/
def addrLocalChar (c : Char) : Bool :=
  alphaChar c || digitChar c || c = '.' || c = '_' || c = '%' || c = '+' || c = '-'

/-- Regex class `[a-zA-Z0-9.-]` (email domain). -/
def domainChar (c : Char) : Bool :=
  alphaChar c || digitChar c || c = '.' || c = '-'

/-- Attempt `([^\n]+)` after dropping `k` delimiter characters: succeeds
iff a non-newline character follows, capturing greedily to the next
newline or end of text. -/
def capAt (s : Str) (k : Nat) : Option Str :=
  match s.drop k with
  | [] => none
  | c :: rest =>
    if c = '\n' then none else some ((c :: rest).takeWhile (fun c => !(c = '\n')))

/-- Greedy-with-backtracking match of `cls*([^\n]+)` (or `cls+…` when
`minC = 1`): try the largest delimiter-run length first, shrinking until
`([^\n]+)` can match, never below `minC`. -/
def capBacktrack (s : Str) (minC : Nat) : Nat → Option Str
  | 0 => if minC = 0 then capAt s 0 else none
  | k + 1 =>
    if k + 1 < minC then none
    else
      match capAt s (k + 1) with
      | some c => some c
      | none => capBacktrack s minC k

/-- `re.search(label + r'\s*([^\n]+)', s)`: scan positions left to right;
at each occurrence of `label` match `\s*` greedily (with backtracking)
followed by the capture.  Models the gpt-variant rescue patterns, whose
`label` ends in `':'`. -/
def searchLabelWs (label : Str) : Str → Option Str
  | [] => none
  | s@(_ :: rest) =>
    if label.isPrefixOf s then
      let t := s.drop label.length
      match capBacktrack t 0 (t.takeWhile isPyWhitespace).length with
      | some c => some c
      | none => searchLabelWs label rest
    else searchLabelWs label rest

/-- `re.search(label + r'[:\s]+([^\n]+)', s)`: as `searchLabelWs` but the
delimiter class is `[:\s]` and at least one delimiter character is
required.  Models the html-variant `name`/`message` patterns. -/
def searchClassCap (label : Str) : Str → Option Str
  | [] => none
  | s@(_ :: rest) =>
    if label.isPrefixOf s then
      let t := s.drop label.length
      match capBacktrack t 1 (t.takeWhile colonWsChar).length with
      | some c => some c
      | none => searchClassCap label rest
    else searchClassCap label rest

/-- Backtracking for `[a-zA-Z0-9.-]+\.[a-zA-Z]{2,}` inside the maximal
domain-character run `R`: the engine tries the longest `[a-zA-Z0-9.-]+`
prefix first, shrinking until a literal `'.'` followed by at least two
letters (matched greedily) completes the pattern. -/
def domainBacktrack (R : Str) : Nat → Option Str
  | 0 => none
  | k + 1 =>
    match R.drop (k + 1) with
    | '.' :: tl =>
      let t := tl.takeWhile alphaChar
      if 2 ≤ t.length then some (R.take (k + 1) ++ '.' :: t)
      else domainBacktrack R k
    | _ => domainBacktrack R k

/-- Match `[a-zA-Z0-9._%+-]+@[a-zA-Z0-9.-]+\.[a-zA-Z]{2,}` anchored at the
start of `s`, returning the captured address.  The local-part class does
not contain `'@'`, so the greedy local run is forced; the domain run
backtracks per `domainBacktrack`. -/
def addrMatch (s : Str) : Option Str :=
  let lp := s.takeWhile addrLocalChar
  if lp.isEmpty then none
  else
    match s.drop lp.length with
    | '@' :: rest =>
      let R := rest.takeWhile domainChar
      match domainBacktrack R R.length with
      | some dom => some (lp ++ '@' :: dom)
      | none => none
    | _ => none

/-- `re.search(r'email[:\s]+([a-zA-Z0-9._%+-]+@[a-zA-Z0-9.-]+\.[a-zA-Z]{2,})', s)`.
The classes `[:\s]` and `[a-zA-Z0-9._%+-]` are disjoint, so the
delimiter run must be exactly maximal (backtracking it cannot help): a
failed address match at a position simply moves the search right. -/
def searchEmailAddr : Str → Option Str
  | [] => none
  | s@(_ :: rest) =>
    if ("email".data).isPrefixOf s then
      let t := s.drop 5
      let r := (t.takeWhile colonWsChar).length
      if 1 ≤ r then
        match addrMatch (t.drop r) with
        | some a => some a
        | none => searchEmailAddr rest
      else searchEmailAddr rest
    else searchEmailAddr rest

/-! ## `email_gpt_bot.py`: `_parse_formsubmit_content` and
`_extract_sender_info` -/

/-- `_parse_formsubmit_content` (email_gpt_bot.py, lines 110–142).

First attempt: split on newlines and, for every line containing `':'`,
record `line.split(':', 1)` as `key.strip().lower() ↦ value.strip()`
(`splitOnce` returns `none` exactly when the guard `':' in line` fails).
Second attempt: for each of `email`/`name`/`message` whose value is still
falsy, run `re.search(label + r':\s*([^\n]+)')` over the lowered content
and record the stripped capture (the source's `label + ':' in
content.lower()` guard is subsumed: the search fails whenever the label
is absent). -/
def parse_formsubmit_content (content : Str) : Dict :=
  let fd := (splitOnChar '\n' content).foldl
    (fun fd line =>
      match splitOnce ':' line with
      | some (k, v) => dictSet fd (pyLower (pyStrip k)) (pyStrip v)
      | none => fd)
    []
  let low := pyLower content
  let rescue := fun (fd : Dict) (key : Str) =>
    if pyTruthy (dictGet fd key) then fd
    else
      match searchLabelWs (key ++ [':']) low with
      | some cap => dictSet fd key (pyStrip cap)
      | none => fd
  let fd := rescue fd ("email".data)
  let fd := rescue fd ("name".data)
  rescue fd ("message".data)

/-- View of an inbound `email.message.Message` as observed by
`_extract_sender_info`: the `From` header (absent ↦ `none`, read via
`msg.get("From", "")`), multipart flag, the walked parts as
`(content_type, decoded payload)` pairs, and the decoded payload for the
non-multipart case. -/
structure GMsg where
  fromHeader : Option Str
  isMultipart : Bool
  parts : List (Str × Str)
  payload : Str

/-- The `form_data` dict accumulated by `_extract_sender_info`
(email_gpt_bot.py, lines 81–92): parse every `text/plain`/`text/html`
part when multipart, else the single payload. -/
def msgFormData (m : GMsg) : Dict :=
  if m.isMultipart then
    m.parts.foldl
      (fun fd p =>
        if p.1 = ("text/plain".data) ∨ p.1 = ("text/html".data) then
          dictUpdate fd (parse_formsubmit_content p.2)
        else fd)
      []
  else parse_formsubmit_content m.payload

/-- Header fallback of `_extract_sender_info` (email_gpt_bot.py, lines
99–106): `from_header.split("<")[1].split(">")[0]` when both angle
brackets occur, else the whole `From` header (defaulting to `""`). -/
def fromFallback (m : GMsg) : Str :=
  let fh := m.fromHeader.getD []
  if fh.contains '<' && fh.contains '>' then
    (splitOnChar '>' ((splitOnChar '<' fh).getD 1 [])).getD 0 []
  else fh

/-- `_extract_sender_info` (email_gpt_bot.py, lines 73–108): returns
`(sender_email, sender_name, message_content, form_data)`.
`sender_email` is `form_data.get('email')` when truthy, otherwise the
`From`-header fallback (always a string there, possibly empty);
`message_content` is `form_data.get('message') or form_data.get('content')
or ""`. -/
def extract_sender_info (m : GMsg) : Option Str × Option Str × Str × Dict :=
  let fd := msgFormData m
  let se0 := dictGet fd ("email".data)
  let sender_email := if pyTruthy se0 then se0 else some (fromFallback m)
  let sender_name := dictGet fd ("name".data)
  let message_content :=
    match dictGet fd ("message".data) with
    | some v => if v.isEmpty then
        (match dictGet fd ("content".data) with
         | some w => if w.isEmpty then [] else w
         | none => [])
      else v
    | none =>
      match dictGet fd ("content".data) with
      | some w => if w.isEmpty then [] else w
      | none => []
  (sender_email, sender_name, message_content, fd)

/-! ## `email_bot.py`: `_extract_form_data_from_html` -/

/-- View of the html content as observed by `_extract_form_data_from_html`:
the raw text, and the table structure BeautifulSoup recovers from it —
`rows` lists, for each `<tr>` found by `soup.find_all('tr')`, the
`get_text()` of its `<td>` cells in order (empty when the text contains
no HTML table, which sends the source into its text-pattern branch). -/
structure HtmlDoc where
  raw : Str
  rows : List (List Str)

/-- One iteration of the row loop (email_bot.py, lines 135–153) over the
accumulator `(form_data, sender_email, sender_name, message_content)`:
rows with fewer than two cells are skipped; otherwise
`cells[0].get_text().strip().lower()` keys `cells[1].get_text().strip()`
and the `email` / `name`-synonym / `message`-synonym elif chain updates
the three extracted values. -/
def rowStep (acc : Dict × Option Str × Option Str × Option Str)
    (row : List Str) : Dict × Option Str × Option Str × Option Str :=
  match row with
  | c0 :: c1 :: _ =>
    let fn := pyLower (pyStrip c0)
    let fv := pyStrip c1
    let fd := dictSet acc.1 fn fv
    if fn = ("email".data) then (fd, some fv, acc.2.2.1, acc.2.2.2)
    else if fn = ("name".data) ∨ fn = ("fullname".data) ∨ fn = ("full name".data) then
      (fd, acc.2.1, some fv, acc.2.2.2)
    else if fn = ("message".data) ∨ fn = ("content".data) ∨ fn = ("comment".data) then
      (fd, acc.2.1, acc.2.2.1, some fv)
    else (fd, acc.2.1, acc.2.2.1, acc.2.2.2)
  | _ => acc

/-- Positional fallback (email_bot.py, lines 156–163): scan the first
five keys in insertion order and return the first value containing both
`'@'` and `'.'`. -/
def positionalScan (fd : Dict) : Option Str :=
  (fd.take 5).findSome?
    (fun kv => if kv.2.contains '@' && kv.2.contains '.' then some kv.2 else none)

/-- Synthesized message fallback (email_bot.py, line 167):
`"Form submission with fields: " + ", ".join(f"{k}: {v}" …)`. -/
def synthSummary (fd : Dict) : Str :=
  ("Form submission with fields: ".data) ++
    List.intercalate (", ".data) (fd.map (fun kv => kv.1 ++ (": ".data) ++ kv.2))

/-- `_extract_form_data_from_html` (email_bot.py, lines 96–174), returning
`(form_data, sender_email, sender_name, message_content)`.

No rows: the text-pattern branch applies the three `re.search` patterns
(`email[:\s]+<address>`, `name[:\s]+([^\n]+)`, `message[:\s]+([^\n]+)`)
to the raw text and returns immediately.  Rows: fold `rowStep`, then the
positional email fallback when `sender_email` is falsy and at least three
fields were collected, then the synthesized message fallback when
`message_content` is falsy. -/
def extract_form_data_from_html (doc : HtmlDoc) :
    Dict × Option Str × Option Str × Option Str :=
  if doc.rows.isEmpty then
    let fd : Dict := []
    let (fd, se) :=
      match searchEmailAddr doc.raw with
      | some a => (dictSet fd ("email".data) (pyStrip a), some (pyStrip a))
      | none => (fd, none)
    let (fd, sn) :=
      match searchClassCap ("name".data) doc.raw with
      | some a => (dictSet fd ("name".data) (pyStrip a), some (pyStrip a))
      | none => (fd, none)
    let (fd, mc) :=
      match searchClassCap ("message".data) doc.raw with
      | some a => (dictSet fd ("message".data) (pyStrip a), some (pyStrip a))
      | none => (fd, none)
    (fd, se, sn, mc)
  else
    let acc := doc.rows.foldl rowStep ([], none, none, none)
    let fd := acc.1
    let se :=
      if !pyTruthy acc.2.1 && decide (3 ≤ fd.length) then
        match positionalScan fd with
        | some v => some v
        | none => acc.2.1
      else acc.2.1
    let mc := if pyTruthy acc.2.2.2 then acc.2.2.2 else some (synthSummary fd)
    (fd, se, acc.2.2.1, mc)

/-! ## `_get_default_response` and `_generate_ai_response` -/

/-- `_get_default_response` (both files, identical template): the
deterministic fallback reply.  `companyName`/`teamName` come from the
configuration, `today` stands for `datetime.now().strftime("%Y-%m-%d")`,
and `name` follows Python truthiness (`name if name else "there"`). -/
def get_default_response (companyName teamName today : Str)
    (name : Option Str) : Str :=
  let greeting :=
    match name with
    | some n => if n.isEmpty then "there".data else n
    | none => "there".data
  ("Dear ".data) ++ greeting ++
    (",\n\nThank you for contacting ".data) ++ companyName ++
    (" on ".data) ++ today ++
    (". We have received your inquiry and will get back to you with a detailed response shortly.\n\nBest regards,\nThe ".data) ++
    teamName ++ ("\n".data) ++ companyName ++ ("\n".data)

/-- Outcome of one call to the external generative service
(`openai.ChatCompletion.create`): a successful completion text, one of
the two retryable failure classes (`RateLimitError`,
`APIConnectionError`), or any other exception. -/
inductive SvcResult
  | success (text : Str)
  | rateLimited
  | connError
  | otherFail

/-- The failure classes the source's retry loop catches together. -/
def retryable : SvcResult → Bool
  | .rateLimited => true
  | .connError => true
  | _ => false

/-- The `for attempt in range(max_retries)` loop of
`_generate_ai_response` (both files, identical): returns
`(returned value, number of service calls, sleep delays in seconds)`.
Success returns the stripped completion; a retryable failure at
`attempt < max_retries - 1` sleeps `(attempt + 1) * 5` and continues,
at the last attempt returns the fallback; any other failure returns the
fallback at once.  The `none` result models the unreachable fall-through
of the `for` loop (Python would return `None`). -/
def aiLoop (service : Nat → SvcResult) (fallback : Str) (maxRetries : Nat) :
    List Nat → Nat → List Nat → Option Str × Nat × List Nat
  | [], calls, sleeps => (none, calls, sleeps)
  | attempt :: rest, calls, sleeps =>
    match service attempt with
    | .success t => (some (pyStrip t), calls + 1, sleeps)
    | .rateLimited =>
      if attempt < maxRetries - 1 then
        aiLoop service fallback maxRetries rest (calls + 1) (sleeps ++ [(attempt + 1) * 5])
      else (some fallback, calls + 1, sleeps)
    | .connError =>
      if attempt < maxRetries - 1 then
        aiLoop service fallback maxRetries rest (calls + 1) (sleeps ++ [(attempt + 1) * 5])
      else (some fallback, calls + 1, sleeps)
    | .otherFail => (some fallback, calls + 1, sleeps)

/-- `_generate_ai_response` (email_gpt_bot.py lines 144–200 /
email_bot.py lines 176–232): `max_retries = 3`, attempts `range(3)`,
fallback `_get_default_response(name)`. -/
def generate_ai_response (service : Nat → SvcResult)
    (companyName teamName today : Str) (name : Option Str) :
    Option Str × Nat × List Nat :=
  aiLoop service (get_default_response companyName teamName today name) 3
    (List.range 3) 0 []

/-! ## `check_emails` orchestration

Observable state of one run and the per-message outcomes.  Exceptions
are modelled with `Except`: `.error st` is an exception propagating out
of the message loop with observable state `st`; the run-level
`try/except` catches it (logging only), so `check_emails` returns `st`.
Failures inside `_send_reply`, `_generate_ai_response` and
`_save_processed_ids` are caught inside those helpers and never
propagate; an exception from `mail.fetch` or `mail.store` is not caught
per-message. -/

/-- Observable effects of a run: the in-memory `processed_ids` list, the
last persisted snapshot of it, the successfully dispatched replies
`(recipient, body)`, and the message indices marked `\Seen`. -/
structure RunState where
  processed : List Str
  savedLedger : List Str
  sent : List (Str × Option Str)
  seen : List Nat
deriving DecidableEq

/-- One fetched message as `check_emails` observes it: the parsed
message, its `Message-ID` header, the generative-service trace used by
`_generate_ai_response`, and whether the SMTP send, the ledger write, or
the IMAP `store` raise. -/
structure MsgView where
  gmsg : GMsg
  messageId : Option Str
  svc : Nat → SvcResult
  sendRaises : Bool
  saveRaises : Bool
  storeRaises : Bool

/-- Outcome of `mail.fetch` for one message number: an exception, a
non-`'OK'` status (the source `continue`s), or a fetched message. -/
inductive FetchOutcome
  | fetchRaise
  | fetchNotOK
  | fetched (m : MsgView)

/-- Outcome of connecting and searching: an exception while
connecting/logging in/searching, a non-`'OK'` search status (early
return), or the fetch outcomes of the matched message numbers. -/
inductive ConnectOutcome
  | connRaise
  | searchNotOK
  | found (msgs : List FetchOutcome)

/-- The body of the per-message loop of `check_emails`
(email_gpt_bot.py, lines 239–272).  `message_id = msg.get('Message-ID',
'')`; skip if already processed; extract sender info; if the sender
email is truthy: generate (never raises), `_send_reply` (send failures
swallowed), append to `processed_ids`, `_save_processed_ids` (write
failures swallowed), then `mail.store` (an exception here propagates);
otherwise log a warning and fall through to the next message. -/
def processMsg (companyName teamName today : Str) (st : RunState) (i : Nat) :
    FetchOutcome → Except RunState RunState
  | .fetchRaise => .error st
  | .fetchNotOK => .ok st
  | .fetched m =>
    if m.messageId.getD [] ∈ st.processed then .ok st
    else
      let r := extract_sender_info m.gmsg
      if pyTruthy r.1 then
        let resp := (generate_ai_response m.svc companyName teamName today r.2.1).1
        let sent' := if m.sendRaises then st.sent
          else st.sent ++ [(r.1.getD [], resp)]
        let processed' := st.processed ++ [m.messageId.getD []]
        let saved' := if m.saveRaises then st.savedLedger else processed'
        if m.storeRaises then .error ⟨processed', saved', sent', st.seen⟩
        else .ok ⟨processed', saved', sent', st.seen ++ [i]⟩
      else .ok st

/-- The `for num in message_nums` loop: an exception from `processMsg`
aborts the remaining batch with the state reached so far. -/
def runLoop (companyName teamName today : Str) (st : RunState) (i : Nat) :
    List FetchOutcome → RunState
  | [] => st
  | f :: fs =>
    match processMsg companyName teamName today st i f with
    | .ok st' => runLoop companyName teamName today st' (i + 1) fs
    | .error st' => st'

/-- `check_emails` (email_gpt_bot.py, lines 216–279): the whole body sits
in one `try/except` that logs and returns, so every outcome — including
a connection failure — returns normally with the effects reached. -/
def check_emails (companyName teamName today : Str) (init : RunState) :
    ConnectOutcome → RunState
  | .connRaise => init
  | .searchNotOK => init
  | .found msgs => runLoop companyName teamName today init 0 msgs

/-- The ledger `record` operation (email_gpt_bot.py, lines 265–266):
`self.processed_ids.append(message_id)` followed by
`self._save_processed_ids()` — an unconditional list append. -/
def record (l : List Str) (mid : Str) : List Str :=
  l ++ [mid]

/-! ## Helper lemmas and concrete fixtures -/

theorem subStr_head (x r : Str) : SubStr x (x ++ r) :=
  ⟨[], r, by simp⟩

theorem subStr_appL (a : Str) {n h : Str} (hs : SubStr n h) : SubStr n (a ++ h) := by
  obtain ⟨l, r, rfl⟩ := hs
  exact ⟨a ++ l, r, by simp⟩

theorem subStr_tail (p x : Str) : SubStr x (p ++ x) :=
  ⟨p, [], by simp⟩

theorem subStr_appR (a : Str) {n h : Str} (hs : SubStr n h) : SubStr n (h ++ a) := by
  obtain ⟨l, r, rfl⟩ := hs
  exact ⟨l, r ++ a, by simp⟩

/-- A FormSubmit notification whose form field, headers and body carry
only relay addresses (relay identifier `formsubmit.co`). -/
def msgRelay : GMsg :=
  { fromHeader := some ("FormSubmit <noreply@formsubmit.co>".data)
    isMultipart := false
    parts := []
    payload := "Email: noreply@formsubmit.co\nName: Bob\nMessage: hi".data }

/-- The spec's §8 scenario body as a plain-text message. -/
def msgJane : GMsg :=
  { fromHeader := some ("FormSubmit <noreply@formsubmit.co>".data)
    isMultipart := false
    parts := []
    payload := "Name: Jane Doe\nEmail: jane@example.com\nMessage: I need a quote".data }

/-- A well-formed submission from `bob@site.com`. -/
def msgGood : GMsg :=
  { fromHeader := some ("FormSubmit <noreply@formsubmit.co>".data)
    isMultipart := false
    parts := []
    payload := "Email: bob@site.com\nName: Bob\nMessage: hello".data }

/-- A message from which no sender can be resolved: unstructured body and
no `From` header (the header fallback yields the empty string, which is
falsy). -/
def msgNoSender : GMsg :=
  { fromHeader := none, isMultipart := false, parts := [], payload := "hello world".data }

/-- The empty run state (fresh ledger, nothing sent or seen). -/
def init0 : RunState := ⟨[], [], [], []⟩

/-- A resolvable message whose SMTP dispatch raises inside `_send_reply`. -/
def mSendFail : MsgView :=
  { gmsg := msgGood, messageId := some ("<id1>".data), svc := fun _ => .otherFail
    sendRaises := true, saveRaises := false, storeRaises := false }

/-- A fully successful message. -/
def mGood : MsgView :=
  { gmsg := msgGood, messageId := some ("<id2>".data), svc := fun _ => .success ("Thanks!".data)
    sendRaises := false, saveRaises := false, storeRaises := false }

/-- A resolvable message lacking a `Message-ID` header. -/
def mNoId : MsgView :=
  { gmsg := msgGood, messageId := none, svc := fun _ => .success ("ok".data)
    sendRaises := false, saveRaises := false, storeRaises := false }

/-- A message whose id `x` is already in the ledger. -/
def mDup : MsgView :=
  { gmsg := msgGood, messageId := some ("x".data), svc := fun _ => .otherFail
    sendRaises := false, saveRaises := false, storeRaises := false }

/-- An unresolvable message (sender extraction yields a falsy address). -/
def mSkip : MsgView :=
  { gmsg := msgNoSender, messageId := some ("<id3>".data), svc := fun _ => .otherFail
    sendRaises := false, saveRaises := false, storeRaises := false }

/-- C4: with a generative-service stub that raises a retryable failure
(rate limit or connection error) on every call, `_generate_ai_response`
calls the service exactly `max_retries = 3` times, sleeps the strictly
increasing delays `1*5 = 5` and `2*5 = 10` seconds between attempts,
and returns the deterministic fallback template instead of raising. -/
theorem c4_retry_exhaustion (service : Nat → SvcResult)
    (companyName teamName today : Str) (name : Option Str)
    (h : ∀ n, retryable (service n) = true) :
    generate_ai_response service companyName teamName today name =
      (some (get_default_response companyName teamName today name), 3, [5, 10]) ∧
    List.Chain' (· < ·) [5, 10] := by
  have h0 : service 0 = .rateLimited ∨ service 0 = .connError := by
    have := h 0; cases hs : service 0 <;> simp_all [retryable]
  have h1 : service 1 = .rateLimited ∨ service 1 = .connError := by
    have := h 1; cases hs : service 1 <;> simp_all [retryable]
  have h2 : service 2 = .rateLimited ∨ service 2 = .connError := by
    have := h 2; cases hs : service 2 <;> simp_all [retryable]
  have e : List.range 3 = [0, 1, 2] := rfl
  constructor
  · unfold generate_ai_response
    rw [e]
    rcases h0 with h0 | h0 <;> rcases h1 with h1 | h1 <;> rcases h2 with h2 | h2 <;>
      simp [aiLoop, h0, h1, h2]
  · simp

/-- C4 witness: the always-rate-limited stub at a concrete
configuration. -/
theorem c4_retry_exhaustion_witness :
    generate_ai_response (fun _ => SvcResult.rateLimited)
        ("ACME".data) ("Support".data) ("2026-10-12".data) (some ("Jane".data)) =
      (some (get_default_response ("ACME".data) ("Support".data) ("2026-10-12".data)
        (some ("Jane".data))), 3, [5, 10]) :=
  (c4_retry_exhaustion (fun _ => SvcResult.rateLimited)
    ("ACME".data) ("Support".data) ("2026-10-12".data) (some ("Jane".data))
    (fun _ => rfl)).1

/-- C5: for every name argument the deterministic fallback response is a
non-empty string containing the visitor's name when present (the generic
greeting `there` when absent), the current date, the configured company
name, and the configured team name. -/
theorem c5_fallback_template (companyName teamName today : Str) (name : Option Str) :
    get_default_response companyName teamName today name ≠ [] ∧
    SubStr today (get_default_response companyName teamName today name) ∧
    SubStr companyName (get_default_response companyName teamName today name) ∧
    SubStr teamName (get_default_response companyName teamName today name) ∧
    SubStr (name.getD ("there".data)) (get_default_response companyName teamName today name) := by
  refine ⟨by simp [get_default_response], ?_, ?_, ?_, ?_⟩
  · simp only [get_default_response]
    exact subStr_appR _ (subStr_appR _ (subStr_appR _ (subStr_appR _
      (subStr_appR _ (subStr_tail _ _)))))
  · simp only [get_default_response]
    exact subStr_appR _ (subStr_tail _ _)
  · simp only [get_default_response]
    exact subStr_appR _ (subStr_appR _ (subStr_appR _ (subStr_tail _ _)))
  · match name with
    | none =>
      simp only [get_default_response, Option.getD]
      exact subStr_appR _ (subStr_appR _ (subStr_appR _ (subStr_appR _ (subStr_appR _
        (subStr_appR _ (subStr_appR _ (subStr_appR _ (subStr_appR _ (subStr_tail _ _)))))))))
    | some n =>
      match n with
      | [] =>
        exact ⟨[], get_default_response companyName teamName today (some []), by simp⟩
      | c :: cs =>
        simp only [get_default_response, Option.getD, List.isEmpty, if_false]
        exact subStr_appR _ (subStr_appR _ (subStr_appR _ (subStr_appR _ (subStr_appR _
          (subStr_appR _ (subStr_appR _ (subStr_appR _ (subStr_appR _ (subStr_tail _ _)))))))))

/-- C1 counterexample: with relay identifier `formsubmit.co`, a message
whose form field, headers and body contain only relay-matching addresses
does NOT leave the address absent — resolution returns
`noreply@formsubmit.co`, which contains the relay identifier. -/
theorem c1_relay_filtering_counterexample :
    (extract_sender_info msgRelay).1 = some ("noreply@formsubmit.co".data) ∧
    SubStr ("formsubmit.co".data) ("noreply@formsubmit.co".data) := by
  constructor
  · decide
  · exact ⟨"noreply@".data, [], by decide⟩

/-- C1 amended: resolution applies no relay-identifier exclusion at all —
whenever `form_data['email']` is a non-empty string it is returned
verbatim, even if it equals or contains the configured relay
identifier. -/
theorem c1_relay_filtering_amended (m : GMsg) (e : Str)
    (h1 : dictGet (msgFormData m) ("email".data) = some e) (h2 : e ≠ []) :
    (extract_sender_info m).1 = some e := by
  have he : pyTruthy (some e) = true := by
    cases e with
    | nil => exact absurd rfl h2
    | cons c cs => rfl
  simp [extract_sender_info, h1, he]

/-- C1 witness: the spec's §8 submission from `jane@example.com` is
passed through unfiltered. -/
theorem c1_relay_filtering_witness :
    (extract_sender_info msgJane).1 = some ("jane@example.com".data) :=
  c1_relay_filtering_amended msgJane ("jane@example.com".data) (by decide) (by decide)

/-- C2 counterexample: a run over one resolvable message whose SMTP
dispatch fails still records the message identifier in the ledger,
persists it, and marks the message read — while nothing was sent — so a
failed dispatch is neither left unread nor retried. -/
theorem c2_record_after_dispatch_counterexample :
    (check_emails ("ACME".data) ("Support".data) ("2026-10-12".data) init0
        (.found [.fetched mSendFail])).sent = [] ∧
    (check_emails ("ACME".data) ("Support".data) ("2026-10-12".data) init0
        (.found [.fetched mSendFail])).processed = ["<id1>".data] ∧
    (check_emails ("ACME".data) ("Support".data) ("2026-10-12".data) init0
        (.found [.fetched mSendFail])).seen = [0] := by
  refine ⟨?_, ?_, ?_⟩ <;> decide

/-- C2 amended: `_send_reply` swallows every exception, so for every
unprocessed message with a truthy resolved sender (and no exception from
`mail.store`) the identifier is recorded and the message marked read
regardless of whether the dispatch succeeded; in particular a failed
dispatch changes nothing in the sent log yet is still recorded. -/
theorem c2_record_after_dispatch_amended (companyName teamName today : Str)
    (st : RunState) (i : Nat) (m : MsgView)
    (h1 : pyTruthy (extract_sender_info m.gmsg).1 = true)
    (h2 : m.messageId.getD [] ∉ st.processed)
    (h3 : m.storeRaises = false) :
    ∃ st', processMsg companyName teamName today st i (.fetched m) = .ok st' ∧
      m.messageId.getD [] ∈ st'.processed ∧ i ∈ st'.seen ∧
      (m.sendRaises = true → st'.sent = st.sent) := by
  simp only [processMsg]
  rw [if_neg h2, if_pos h1, h3]
  exact ⟨_, rfl, by simp, by simp, fun hs => by simp [hs]⟩

/-- C2 witness: the failed-dispatch message from the counterexample run,
instantiating the amended statement. -/
theorem c2_record_after_dispatch_witness :
    ∃ st', processMsg ("ACME".data) ("Support".data) ("2026-10-12".data) init0 0
        (.fetched mSendFail) = .ok st' ∧
      mSendFail.messageId.getD [] ∈ st'.processed ∧ 0 ∈ st'.seen ∧
      (mSendFail.sendRaises = true → st'.sent = init0.sent) :=
  c2_record_after_dispatch_amended ("ACME".data) ("Support".data) ("2026-10-12".data)
    init0 0 mSendFail (by decide) (by decide) rfl

/-- C3 counterexample: the ledger is a list with an unconditional append,
so recording the same identifier twice yields a duplicate entry, not the
same contents as recording it once. -/
theorem c3_record_idempotent_counterexample :
    record (record [] ("m1".data)) ("m1".data) ≠ record [] ("m1".data) ∧
    record (record [] ("m1".data)) ("m1".data) = ["m1".data, "m1".data] := by
  constructor <;> decide

/-- C3 amended: `record` appends unconditionally, so recording the same
identifier twice leaves two copies in the ledger; duplicates are avoided
only because `check_emails` skips any message whose identifier is
already in the ledger before it can be recorded again. -/
theorem c3_record_idempotent_amended :
    (∀ (l : List Str) (mid : Str), record (record l mid) mid = l ++ [mid, mid]) ∧
    (∀ (companyName teamName today : Str) (st : RunState) (i : Nat) (m : MsgView),
      m.messageId.getD [] ∈ st.processed →
      processMsg companyName teamName today st i (.fetched m) = .ok st) := by
  constructor
  · intro l mid
    simp [record]
  · intro companyName teamName today st i m hmem
    simp only [processMsg]
    rw [if_pos hmem]

/-- C3 witness: a duplicate double-record on a concrete ledger, and the
skip of a concrete message whose id `x` is already recorded. -/
theorem c3_record_idempotent_witness :
    record (record [] ("x".data)) ("x".data) = [] ++ ["x".data, "x".data] ∧
    processMsg ("ACME".data) ("Support".data) ("2026-10-12".data)
        ⟨["x".data], ["x".data], [], []⟩ 1 (.fetched mDup) =
      .ok ⟨["x".data], ["x".data], [], []⟩ :=
  ⟨c3_record_idempotent_amended.1 [] ("x".data),
   c3_record_idempotent_amended.2 ("ACME".data) ("Support".data) ("2026-10-12".data)
     ⟨["x".data], ["x".data], [], []⟩ 1 mDup (by decide)⟩

/-- C6 counterexample: the body `"Name\tValue\nfoo\tbar"` has a
`Name<TAB>Value` header line, yet neither extraction variant turns the
subsequent tab-delimited line into a `foo ↦ bar` field — no tab-table
strategy exists in the code. -/
theorem c6_tab_table_counterexample :
    dictGet (parse_formsubmit_content ("Name\tValue\nfoo\tbar".data)) ("foo".data) = none ∧
    dictGet (extract_form_data_from_html
        { raw := "Name\tValue\nfoo\tbar".data, rows := [] }).1 ("foo".data) = none := by
  constructor <;> decide

/-- C6 amended: tab-delimited bodies are not parsed as generic field
tables (the tab body above yields no fields at all in either variant);
fields are recovered only from colon-delimited lines in the plain-text
parser — `"foo: bar"` does yield `foo ↦ bar` — and, in the html
variant's pattern branch, from the `email`/`name`/`message` labels,
whose `[:\s]` delimiter does accept a tab. -/
theorem c6_tab_table_amended :
    parse_formsubmit_content ("Name\tValue\nfoo\tbar".data) = [] ∧
    extract_form_data_from_html { raw := "Name\tValue\nfoo\tbar".data, rows := [] } =
      ([], none, none, none) ∧
    parse_formsubmit_content ("foo: bar".data) = [("foo".data, "bar".data)] ∧
    (extract_form_data_from_html { raw := "email\tbob@site.com".data, rows := [] }).2.1 =
      some ("bob@site.com".data) := by
  refine ⟨?_, ?_, ?_, ?_⟩ <;> decide

/-- C7 counterexample: the unlabeled prose body
`"Please call me back, thanks - Bob, bob@site.com"` populates no `email`
key in either variant — the claimed label-free regex rescue does not
exist, so extraction does not yield `bob@site.com`. -/
theorem c7_regex_rescue_counterexample :
    dictGet (parse_formsubmit_content
        ("Please call me back, thanks - Bob, bob@site.com".data)) ("email".data) = none ∧
    (extract_form_data_from_html
        { raw := "Please call me back, thanks - Bob, bob@site.com".data,
          rows := [] }).2.1 = none := by
  constructor <;> decide

/-- C7 amended: the email rescue requires an explicit `email` label — the
plain-text variant assigns the text after an `email:` occurrence
(`"My Email: bob@site.com"` rescues `email ↦ bob@site.com`), and the
html variant assigns the first address-shaped match after
`email[:\s]+` (`"Reach me at email bob@site.com"` yields it) — while
unlabeled prose containing an address yields no email at all. -/
theorem c7_regex_rescue_amended :
    dictGet (parse_formsubmit_content ("My Email: bob@site.com".data)) ("email".data) =
      some ("bob@site.com".data) ∧
    (extract_form_data_from_html
        { raw := "Reach me at email bob@site.com".data, rows := [] }).2.1 =
      some ("bob@site.com".data) ∧
    (extract_form_data_from_html
        { raw := "Please call me back, thanks - Bob, bob@site.com".data,
          rows := [] }).2.1 = none := by
  refine ⟨?_, ?_, ?_⟩ <;> decide

/-- C8 counterexample: an HTML table with three fields none of which is
named `email` — `subject ↦ hi`, `website ↦ john@doe.org`,
`phone ↦ 123` — makes resolution return the arbitrary field value
`john@doe.org` merely because it contains `'@'` and `'.'`, exactly the
fabricated-looking guess the claim rules out. -/
theorem c8_no_fabricated_address_counterexample :
    (extract_form_data_from_html
        { raw := [],
          rows := [["Subject".data, "hi".data],
                   ["Website".data, "john@doe.org".data],
                   ["Phone".data, "123".data]] }).2.1 = some ("john@doe.org".data) ∧
    dictGet (extract_form_data_from_html
        { raw := [],
          rows := [["Subject".data, "hi".data],
                   ["Website".data, "john@doe.org".data],
                   ["Phone".data, "123".data]] }).1 ("email".data) = none := by
  constructor <;> decide

/-- C8 amended: when the resolved sender is falsy the orchestrator skips
the message with a warning and changes nothing (no reply, no record, no
read-flag); but resolution itself is not guess-free — the html variant's
positional fallback can surface an arbitrary `'@'`-and-`'.'`-containing
field value, as the counterexample shows. -/
theorem c8_no_fabricated_address_amended (companyName teamName today : Str)
    (st : RunState) (i : Nat) (m : MsgView)
    (h : pyTruthy (extract_sender_info m.gmsg).1 = false) :
    processMsg companyName teamName today st i (.fetched m) = .ok st := by
  simp only [processMsg]
  by_cases hmem : m.messageId.getD [] ∈ st.processed
  · rw [if_pos hmem]
  · rw [if_neg hmem, if_neg (by simp [h])]

/-- C8 witness: the unresolvable message `mSkip` (unstructured body, no
`From` header) is skipped with the run state unchanged. -/
theorem c8_no_fabricated_address_witness :
    processMsg ("ACME".data) ("Support".data) ("2026-10-12".data) init0 0
      (.fetched mSkip) = .ok init0 :=
  c8_no_fabricated_address_amended ("ACME".data) ("Support".data) ("2026-10-12".data)
    init0 0 mSkip (by decide)

/-- C9 counterexample: a batch whose first message raises during
`mail.fetch` aborts the whole run — the second, perfectly processable
message is neither replied to nor recorded (the run returns the initial
state), although the same message alone is processed. -/
theorem c9_batch_isolation_counterexample :
    check_emails ("ACME".data) ("Support".data) ("2026-10-12".data) init0
        (.found [.fetchRaise, .fetched mGood]) = init0 ∧
    (check_emails ("ACME".data) ("Support".data) ("2026-10-12".data) init0
        (.found [.fetched mGood])).processed = ["<id2>".data] := by
  constructor <;> decide

/-- C9 amended: failures inside generation and dispatch are swallowed and
never abort the batch, and a non-`'OK'` fetch status only skips its own
message; but an exception raised while fetching or while marking a
message read (the unhandled per-message operations) aborts the remaining
batch, and the run-level handler then returns normally. -/
theorem c9_batch_isolation_amended (companyName teamName today : Str)
    (st : RunState) (i : Nat) (m : MsgView)
    (h : m.storeRaises = false) :
    (∃ st', processMsg companyName teamName today st i (.fetched m) = .ok st') ∧
    processMsg companyName teamName today st i .fetchNotOK = .ok st := by
  constructor
  · simp only [processMsg]
    by_cases hmem : m.messageId.getD [] ∈ st.processed
    · rw [if_pos hmem]
      exact ⟨st, rfl⟩
    · rw [if_neg hmem]
      by_cases ht : pyTruthy (extract_sender_info m.gmsg).1 = true
      · rw [if_pos ht, h]
        exact ⟨_, rfl⟩
      · rw [if_neg ht]
        exact ⟨st, rfl⟩
  · rfl

/-- C9 witness: a message that fails both generation (service always
fails hard) and dispatch (SMTP raises) still yields a normal `.ok` step,
and a non-`'OK'` fetch leaves the state untouched. -/
theorem c9_batch_isolation_witness :
    (∃ st', processMsg ("ACME".data) ("Support".data) ("2026-10-12".data) init0 0
        (.fetched mSendFail) = .ok st') ∧
    processMsg ("ACME".data) ("Support".data) ("2026-10-12".data) init0 0
        .fetchNotOK = .ok init0 :=
  c9_batch_isolation_amended ("ACME".data) ("Support".data) ("2026-10-12".data)
    init0 0 mSendFail rfl

/-- C10: a fetched message lacking a `Message-ID` header gets the empty
string as its ledger identifier: once the empty string is in the ledger,
every later such message is skipped as already processed with the state
unchanged (so it is never replied to); and processing one such message
records the empty string in the ledger. -/
theorem c10_empty_message_id :
    (∀ (companyName teamName today : Str) (st : RunState) (i : Nat) (m : MsgView),
      m.messageId = none → ([] : Str) ∈ st.processed →
      processMsg companyName teamName today st i (.fetched m) = .ok st) ∧
    (∀ (companyName teamName today : Str) (st : RunState) (i : Nat) (m : MsgView),
      m.messageId = none → ([] : Str) ∉ st.processed →
      pyTruthy (extract_sender_info m.gmsg).1 = true → m.storeRaises = false →
      ∃ st', processMsg companyName teamName today st i (.fetched m) = .ok st' ∧
        ([] : Str) ∈ st'.processed) := by
  constructor
  · intro companyName teamName today st i m hid hmem
    simp only [processMsg, hid, Option.getD_none]
    rw [if_pos hmem]
  · intro companyName teamName today st i m hid hmem ht hs
    simp only [processMsg, hid, Option.getD_none]
    rw [if_neg hmem, if_pos ht, hs]
    exact ⟨_, rfl, by simp⟩

/-- C10 witness: with the empty string already recorded, the concrete
`Message-ID`-less message `mNoId` is skipped unchanged; from a fresh
ledger, processing it records the empty string. -/
theorem c10_empty_message_id_witness :
    processMsg ("ACME".data) ("Support".data) ("2026-10-12".data)
        ⟨[([] : Str)], [[]], [], []⟩ 1 (.fetched mNoId) = .ok ⟨[[]], [[]], [], []⟩ ∧
    ∃ st', processMsg ("ACME".data) ("Support".data) ("2026-10-12".data) init0 0
        (.fetched mNoId) = .ok st' ∧ ([] : Str) ∈ st'.processed :=
  ⟨c10_empty_message_id.1 ("ACME".data) ("Support".data) ("2026-10-12".data)
     ⟨[[]], [[]], [], []⟩ 1 mNoId rfl (by decide),
   c10_empty_message_id.2 ("ACME".data) ("Support".data) ("2026-10-12".data)
     init0 0 mNoId rfl (by decide) (by decide) rfl⟩
